import Mathlib

/-!
Shallow embedding of `tensorflow_federated/cc/core/impl/executors/xla_executor.cc`.

The executor's external collaborators (the tensor value codec, the XLA
client's transfer calls, and the platform registry) are modelled as record
fields of an environment (`Env`, `PlatformEnv`): the executor treats them as
opaque fallible functions, exactly as the C++ treats the corresponding
libraries.  Statuses are modelled as a code together with a human-readable
message, mirroring `absl::Status`.  Remote allocations made via
`TransferToServer` are returned as an explicit list alongside each result,
so that claims about side effects ("no remote allocation is made") are
statable.
-/

set_option autoImplicit false
set_option maxRecDepth 40000

namespace TFF

/-- Status codes of `absl::Status`, restricted to the ones this file uses. -/
inductive StatusCode where
  | ok
  | invalidArgument
  | unimplemented
  | internal
  | notFound
  | unknown
  deriving DecidableEq, Repr

/-- An `absl::Status`: a code plus a human-readable message. -/
structure Status where
  code : StatusCode
  message : String
  deriving DecidableEq, Repr

/-- `absl::OkStatus()`; an OK status carries no message. -/
def okStatus : Status := ⟨.ok, ""⟩

/-- `absl::InvalidArgumentError(msg)`. -/
def invalidArgumentError (msg : String) : Status := ⟨.invalidArgument, msg⟩

/-- `absl::UnimplementedError(msg)`. -/
def unimplementedError (msg : String) : Status := ⟨.unimplemented, msg⟩

/-- `absl::InternalError(msg)`. -/
def internalError (msg : String) : Status := ⟨.internal, msg⟩

/-- The serialized tensor payload of a `v0::Value` tensor message:
dtype tag, shape, and flat contents. -/
structure TensorProto where
  dtype : Nat
  shape : List Nat
  contents : List Int
  deriving DecidableEq, Repr

/-- A `v0::Value` message, abstracted to its `value_case()`:
a tensor, a struct of element values, some other set oneof case
(computation, federated, sequence, ...; distinguished by `tag`), or the
unset default message. -/
inductive ValuePb where
  | tensor (t : TensorProto)
  | struct_ (elements : List ValuePb)
  | computation (tag : Nat)
  | unset

/-- A host-resident `tensorflow::Tensor`. -/
structure HostTensor where
  dtype : Nat
  shape : List Nat
  payload : List Int
  deriving DecidableEq, Repr

/-- An `xla::Literal` / `xla::BorrowingLiteral`. -/
structure Literal where
  dtype : Nat
  shape : List Nat
  raw : List Int
  deriving DecidableEq, Repr

/-- `xla::GlobalData`: a handle to an allocation of data living in the XLA
service.  The executor never inspects it; it only passes it back to the
client's transfer calls. -/
structure GlobalData where
  stored : Literal
  deriving DecidableEq, Repr

/-- The external collaborators of the executor: the tensor value codec
(`DeserializeTensorValue` / `SerializeTensorValue`), the TF-to-XLA literal
conversions, and the XLA client's transfer calls. -/
structure Env where
  deserializeTensorValue : ValuePb → Except Status HostTensor
  hostTensorToBorrowingLiteral : HostTensor → Except String Literal
  transferToServer : Literal → Except Status GlobalData
  transfer : GlobalData → Except Status Literal
  literalToHostTensor : Literal → Nat → Except String HostTensor
  serializeTensorValue : HostTensor → Except Status TensorProto

/-- `ServiceTensor` (xla_executor.cc:47-67): a tensor embedded in the XLA
service, i.e. the `GlobalData` allocation paired with its dtype. -/
structure ServiceTensor where
  data : GlobalData
  dtype : Nat
  deriving DecidableEq, Repr

/-- `XLAExecutorValue::ValueType` (xla_executor.cc:72). -/
inductive ValueType where
  | TENSOR
  | STRUCT
  | UNIMPLEMENTED
  deriving DecidableEq, Repr

/-- The underlying integer of the `ValueType` enum class, as `absl::StrCat`
renders it. -/
def ValueType.underlying : ValueType → Nat
  | .TENSOR => 0
  | .STRUCT => 1
  | .UNIMPLEMENTED => 2

/-- `XLAExecutorValue` (xla_executor.cc:70-107): a variant over exactly two
alternatives, a shared `ServiceTensor` or a vector of child values. -/
inductive XLAExecutorValue where
  | tensor (st : ServiceTensor)
  | struct_ (elements : List XLAExecutorValue)

/-- `XLAExecutorValue::type()` (xla_executor.cc:82-90): classify which
alternative the variant holds.  The `UNIMPLEMENTED` fallback of the C++
`else` branch is unreachable because the variant holds exactly one of the
two alternatives. -/
def XLAExecutorValue.type : XLAExecutorValue → ValueType
  | .tensor _ => .TENSOR
  | .struct_ _ => .STRUCT

/-- The `tensorflow::Status` of `HostTensorToBorrowingLiteral` as observed
through `to_literal_status` (xla_executor.cc:162-163): an OK status carries
an empty `error_message()`. -/
def toLiteralStatus (r : Except String Literal) : Status :=
  match r with
  | .ok _ => okStatus
  | .error m => ⟨.unknown, m⟩

/-- `XLAExecutor::EmbedTensorValue` (xla_executor.cc:159-178): decode the
message to a host tensor, convert it to a borrowing literal, and transfer
it to the XLA service.  Returns the resulting value together with the list
of `TransferToServer` calls issued.  Note that the transfer-failure branch
(xla_executor.cc:173-177) builds its message from `to_literal_status`,
which is OK at that point, not from the failed transfer's status. -/
def EmbedTensorValue (env : Env) (value_pb : ValuePb) :
    Except Status XLAExecutorValue × List Literal :=
  match env.deserializeTensorValue value_pb with
  | .error s => (.error s, [])
  | .ok t =>
    let lit_result := env.hostTensorToBorrowingLiteral t
    let to_literal_status := toLiteralStatus lit_result
    match lit_result with
    | .error _ =>
      (.error (invalidArgumentError
        ("Failed to convert v0::Value proto to XLA literal. Message: " ++
          to_literal_status.message)), [])
    | .ok tensor_literal =>
      match env.transferToServer tensor_literal with
      | .ok data_in_server =>
        (.ok (.tensor ⟨data_in_server, t.dtype⟩), [tensor_literal])
      | .error _ =>
        (.error (invalidArgumentError
          ("Failed to transfer XLA literal to local server. Message: " ++
            to_literal_status.message)), [tensor_literal])

mutual

/-- `XLAExecutor::CreateValueAny` (xla_executor.cc:179-195): dispatch on the
message's `value_case()`.  Tensor messages are embedded; struct messages
recursively construct each child in message order, aborting on the first
failure; every other case is an unimplemented error. -/
def CreateValueAny (env : Env) : ValuePb → Except Status XLAExecutorValue × List Literal
  | .tensor t => EmbedTensorValue env (.tensor t)
  | .struct_ els =>
    match createValueList env els with
    | (.ok vs, calls) => (.ok (.struct_ vs), calls)
    | (.error e, calls) => (.error e, calls)
  | .computation _ => (.error (unimplementedError "Not implemented yet"), [])
  | .unset => (.error (unimplementedError "Not implemented yet"), [])

/-- The loop of the struct case of `CreateValueAny` (xla_executor.cc:185-189):
construct each element's value in order; `TFF_TRY` aborts on the first
failure.  The `TransferToServer` calls of all children processed so far are
accumulated. -/
def createValueList (env : Env) : List ValuePb → Except Status (List XLAExecutorValue) × List Literal
  | [] => (.ok [], [])
  | el :: rest =>
    match CreateValueAny env el with
    | (.error e, calls) => (.error e, calls)
    | (.ok v, calls) =>
      match createValueList env rest with
      | (.error e, calls2) => (.error e, calls ++ calls2)
      | (.ok vs, calls2) => (.ok (v :: vs), calls ++ calls2)

end

/-- A resolved `ValueFuture` (xla_executor.cc:109): the `StatusOr` content a
waiter observes after the one-shot future resolves. -/
def ValueFuture : Type := Except Status XLAExecutorValue

/-- Effects observable from one executor entry point: the number of
asynchronous units scheduled on the task substrate (`ThreadRun`), and the
number of calls issued to the XLA service. -/
structure Effects where
  asyncUnits : Nat
  remoteCalls : Nat
  deriving DecidableEq, Repr

/-- No asynchronous units scheduled and no remote calls issued. -/
def noEffects : Effects := ⟨0, 0⟩

/-- `XLAExecutor::CreateExecutorValue` (xla_executor.cc:116-124): schedule
one asynchronous unit running `CreateValueAny` on the message and return
its future. -/
def CreateExecutorValue (env : Env) (value_pb : ValuePb) :
    Except Status ValueFuture × Effects :=
  let r := CreateValueAny env value_pb
  (.ok r.1, ⟨1, r.2.length⟩)

/-- `XLAExecutor::CreateCall` (xla_executor.cc:126-129): unconditionally an
unimplemented error; the body performs no other operation. -/
def CreateCall (fn : ValueFuture) (arg : Option ValueFuture) :
    Except Status ValueFuture × Effects :=
  (.error (unimplementedError "Not implemented yet"), noEffects)

/-- `XLAExecutor::CreateStruct` (xla_executor.cc:131-134): unconditionally an
unimplemented error; the body performs no other operation. -/
def CreateStruct (members : List ValueFuture) :
    Except Status ValueFuture × Effects :=
  (.error (unimplementedError "Not implemented yet"), noEffects)

/-- `XLAExecutor::CreateSelection` (xla_executor.cc:136-139): unconditionally
an unimplemented error; the body performs no other operation. -/
def CreateSelection (value : ValueFuture) (index : Nat) :
    Except Status ValueFuture × Effects :=
  (.error (unimplementedError "Not implemented yet"), noEffects)

/-- The computation performed by the unit of work registered for a tensor
leaf in `MaterializeXLAValue` (xla_executor.cc:206-227): transfer the
literal back from the service, convert it to a host tensor using the leaf's
recorded dtype, and serialize it into the leaf's output slot. -/
def tensorLeafTask (env : Env) (st : ServiceTensor) : Except Status TensorProto :=
  match env.transfer st.data with
  | .error s =>
    .error (internalError
      ("Error transferring tensor from XLA service to host. Message: " ++ s.message))
  | .ok result_literal =>
    match env.literalToHostTensor result_literal st.dtype with
    | .error m =>
      .error (internalError ("Error converting XLA literal to tensor. Message: " ++ m))
    | .ok tensor_out => env.serializeTensorValue tensor_out

/-- The output message being built by `MaterializeXLAValue`: struct slots are
allocated synchronously during the walk, while each tensor slot holds the
result its registered unit of work will write into it. -/
inductive PendingValue where
  | tensorSlot (task : Except Status TensorProto)
  | struct_ (elements : List PendingValue)

mutual

/-- `XLAExecutor::MaterializeXLAValue` (xla_executor.cc:200-244): walk the
value depth-first; a tensor leaf registers one transfer-back-and-serialize
unit in the `ParallelTasks` group, a struct allocates its output slot and
recurses into each child in order.  The `default` branch of the C++ switch
(xla_executor.cc:238-243) is unreachable because `type()` only returns
`TENSOR` or `STRUCT`; the status it would build is embedded separately as
`materializeDefaultStatus`. -/
def MaterializeXLAValue (env : Env) : XLAExecutorValue → PendingValue
  | .tensor st => .tensorSlot (tensorLeafTask env st)
  | .struct_ els => .struct_ (materializeList env els)

/-- The loop of the struct case of `MaterializeXLAValue`
(xla_executor.cc:231-235): recurse into each child in order, threading the
same task group. -/
def materializeList (env : Env) : List XLAExecutorValue → List PendingValue
  | [] => []
  | v :: rest => MaterializeXLAValue env v :: materializeList env rest

end

/-- The status built by the `default` branch of the switch in
`MaterializeXLAValue` (xla_executor.cc:238-243): an `absl::UnimplementedError`
whose message ends with the offending `ValueType` rendered by
`absl::StrCat` as its underlying integer. -/
def materializeDefaultStatus (t : ValueType) : Status :=
  unimplementedError
    ("Can only materialize tensors and structures of tensors from XLA " ++
      "executor; attempted to materialize a value of type: " ++
      toString t.underlying)

mutual

/-- The units of work registered in the `ParallelTasks` group during the walk
of `MaterializeXLAValue`, in registration (depth-first) order. -/
def collectTasks : PendingValue → List (Except Status TensorProto)
  | .tensorSlot task => [task]
  | .struct_ els => collectTasksList els

/-- `collectTasks` over a list of children, preserving order. -/
def collectTasksList : List PendingValue → List (Except Status TensorProto)
  | [] => []
  | p :: rest => collectTasks p ++ collectTasksList rest

end

mutual

/-- The output message after every registered unit has run: each successful
tensor unit has written its serialized tensor into its slot; a failed
unit's slot stays in the default (unset) state. -/
def fillPending : PendingValue → ValuePb
  | .tensorSlot (.ok t) => .tensor t
  | .tensorSlot (.error _) => .unset
  | .struct_ els => .struct_ (fillPendingList els)

/-- `fillPending` over a list of children, preserving order. -/
def fillPendingList : List PendingValue → List ValuePb
  | [] => []
  | p :: rest => fillPending p :: fillPendingList rest

end

/-- `ParallelTasks::WaitAll` (called at xla_executor.cc:147): wait for every
registered unit and report the first failure, if any. -/
def waitAll : List (Except Status TensorProto) → Except Status Unit
  | [] => .ok ()
  | .ok _ :: rest => waitAll rest
  | .error e :: _ => .error e

/-- `XLAExecutor::Materialize` on an already-resolved value
(xla_executor.cc:141-149, after `Wait`): walk the value registering the
transfer-back units, join the task group, and return the populated message
only if every unit succeeded. -/
def Materialize (env : Env) (v : XLAExecutorValue) : Except Status ValuePb :=
  match waitAll (collectTasks (MaterializeXLAValue env v)) with
  | .error e => .error e
  | .ok _ => .ok (fillPending (MaterializeXLAValue env v))

/-- `XLAExecutor::Materialize` (xla_executor.cc:141-149): `Wait` on the input
future, propagating its failure, then materialize the resolved value. -/
def MaterializeFuture (env : Env) (fut : ValueFuture) : Except Status ValuePb :=
  match fut with
  | .error e => .error e
  | .ok v => Materialize env v

/-- The composition a caller observes: `CreateExecutorValue` followed by
`Materialize` of the returned future. -/
def createAndMaterialize (env : Env) (m : ValuePb) : Except Status ValuePb :=
  match (CreateExecutorValue env m).1 with
  | .error e => .error e
  | .ok fut => MaterializeFuture env fut

mutual

/-- The tensor leaves of a value, in depth-first order. -/
def leaves : XLAExecutorValue → List ServiceTensor
  | .tensor st => [st]
  | .struct_ els => leavesList els

/-- `leaves` over a list of children, preserving order. -/
def leavesList : List XLAExecutorValue → List ServiceTensor
  | [] => []
  | v :: rest => leaves v ++ leavesList rest

end

/-- `xla::se::Platform`, opaque to this file. -/
structure Platform where
  id : Nat
  deriving DecidableEq, Repr

/-- `xla::LocalClientOptions` as used by `GetXLAClient`: only the platform is
set. -/
structure LocalClientOptions where
  platform : Platform
  deriving DecidableEq, Repr

/-- `xla::Client`, opaque to this file. -/
structure Client where
  id : Nat
  deriving DecidableEq, Repr

/-- The external collaborators of `GetXLAClient`: the platform registry and
the client library. -/
structure PlatformEnv where
  platformWithName : String → Except Status Platform
  getOrCreateLocalClient : LocalClientOptions → Except Status Client

/-- `GetXLAClient` (xla_executor.cc:247-267): look up the platform by name,
then get-or-create the local client for it; each failure becomes an
internal error. -/
def GetXLAClient (penv : PlatformEnv) (platform_name : String) : Except Status Client :=
  match penv.platformWithName platform_name with
  | .error s =>
    .error (internalError
      ("Failed to find specified platform " ++ platform_name ++
        " in MultiPlatformManager. You may be missing a build " ++
        "dependency to register the platform. Message: " ++ s.message))
  | .ok platform =>
    match penv.getOrCreateLocalClient ⟨platform⟩ with
    | .error s =>
      .error (internalError ("Failed to construct XLA client. Message: " ++ s.message))
    | .ok constructed_client => .ok constructed_client

/-- Whether `sub` occurs as a contiguous substring of `msg`; used to state
that an error message carries some underlying text. -/
def msgCarries (msg sub : String) : Prop :=
  sub.toList <:+: msg.toList

instance (msg sub : String) : Decidable (msgCarries msg sub) :=
  List.decidableInfix sub.toList msg.toList

/-- The assumption of the round-trip property: for this particular message,
the external codec and the remote transfers all succeed and compose to the
identity (dtype, shape and contents are preserved exactly). -/
def TensorRoundTrips (env : Env) (t : TensorProto) : Prop :=
  ∃ ht lit gd lit2 ht2,
    env.deserializeTensorValue (.tensor t) = .ok ht ∧
    env.hostTensorToBorrowingLiteral ht = .ok lit ∧
    env.transferToServer lit = .ok gd ∧
    env.transfer gd = .ok lit2 ∧
    env.literalToHostTensor lit2 ht.dtype = .ok ht2 ∧
    env.serializeTensorValue ht2 = .ok t

/-- A faithful test environment: the codec and the transfers are the evident
bijections, so every tensor round-trips. -/
def idEnv : Env where
  deserializeTensorValue
    | .tensor t => .ok ⟨t.dtype, t.shape, t.contents⟩
    | _ => .error ⟨.invalidArgument, "value is not a tensor"⟩
  hostTensorToBorrowingLiteral ht := .ok ⟨ht.dtype, ht.shape, ht.payload⟩
  transferToServer lit := .ok ⟨lit⟩
  transfer gd := .ok gd.stored
  literalToHostTensor lit d :=
    if lit.dtype = d then .ok ⟨lit.dtype, lit.shape, lit.raw⟩ else .error "dtype mismatch"
  serializeTensorValue ht := .ok ⟨ht.dtype, ht.shape, ht.payload⟩

/-- A test environment whose `TransferToServer` always fails with a service
error message. -/
def envTransferFail : Env where
  deserializeTensorValue
    | .tensor t => .ok ⟨t.dtype, t.shape, t.contents⟩
    | _ => .error ⟨.invalidArgument, "value is not a tensor"⟩
  hostTensorToBorrowingLiteral ht := .ok ⟨ht.dtype, ht.shape, ht.payload⟩
  transferToServer _ := .error ⟨.internal, "service exploded"⟩
  transfer gd := .ok gd.stored
  literalToHostTensor lit d :=
    if lit.dtype = d then .ok ⟨lit.dtype, lit.shape, lit.raw⟩ else .error "dtype mismatch"
  serializeTensorValue ht := .ok ⟨ht.dtype, ht.shape, ht.payload⟩

/-- A test environment whose transfer back from the service always fails. -/
def envMatFail : Env where
  deserializeTensorValue
    | .tensor t => .ok ⟨t.dtype, t.shape, t.contents⟩
    | _ => .error ⟨.invalidArgument, "value is not a tensor"⟩
  hostTensorToBorrowingLiteral ht := .ok ⟨ht.dtype, ht.shape, ht.payload⟩
  transferToServer lit := .ok ⟨lit⟩
  transfer _ := .error ⟨.internal, "link down"⟩
  literalToHostTensor lit d :=
    if lit.dtype = d then .ok ⟨lit.dtype, lit.shape, lit.raw⟩ else .error "dtype mismatch"
  serializeTensorValue ht := .ok ⟨ht.dtype, ht.shape, ht.payload⟩

/-- A concrete service tensor, as built by `idEnv` for dtype 1, shape `[3]`,
contents `[1, 2, 3]`. -/
def stA : ServiceTensor := ⟨⟨⟨1, [3], [1, 2, 3]⟩⟩, 1⟩

/-- A concrete service tensor, as built by `idEnv` for dtype 2, shape `[1]`,
contents `[7]`. -/
def stB : ServiceTensor := ⟨⟨⟨2, [1], [7]⟩⟩, 2⟩

/-- A concrete resolved value with two tensor leaves. -/
def vMat : XLAExecutorValue := .struct_ [.tensor stA, .tensor stB]

/-- A platform registry in which no platform is ever found. -/
def penvNotFound : PlatformEnv where
  platformWithName _ := .error ⟨.notFound, "no such platform"⟩
  getOrCreateLocalClient _ := .ok ⟨0⟩

/-- A platform registry in which lookup succeeds but client construction
fails. -/
def penvClientFail : PlatformEnv where
  platformWithName _ := .ok ⟨0⟩
  getOrCreateLocalClient _ := .error ⟨.unknown, "boom"⟩

/-- The caller-observed composition unfolds to materializing the future
returned by value creation. -/
theorem createAndMaterialize_eq (env : Env) (m : ValuePb) :
    createAndMaterialize env m = MaterializeFuture env (CreateValueAny env m).1 := rfl

/-- A successful composition decomposes into a successful creation followed
by a successful materialization. -/
theorem createAndMaterialize_ok_elim (env : Env) (m out : ValuePb)
    (h : createAndMaterialize env m = .ok out) :
    ∃ v, (CreateValueAny env m).1 = .ok v ∧ Materialize env v = .ok out := by
  rw [createAndMaterialize_eq] at h
  cases hv : (CreateValueAny env m).1 with
  | error e => rw [hv] at h; simp [MaterializeFuture] at h
  | ok v => rw [hv] at h; exact ⟨v, rfl, h⟩

/-- `Materialize` succeeds exactly when the join succeeds, in which case the
output is the fully filled pending message. -/
theorem Materialize_ok_iff (env : Env) (v : XLAExecutorValue) (m : ValuePb) :
    Materialize env v = .ok m ↔
      waitAll (collectTasks (MaterializeXLAValue env v)) = .ok () ∧
      fillPending (MaterializeXLAValue env v) = m := by
  unfold Materialize
  cases h : waitAll (collectTasks (MaterializeXLAValue env v)) with
  | error e => simp [h]
  | ok u => cases u; simp [h]

/-- The join of concatenated task lists succeeds exactly when both halves
succeed. -/
theorem waitAll_append_ok (a b : List (Except Status TensorProto)) :
    waitAll (a ++ b) = .ok () ↔ waitAll a = .ok () ∧ waitAll b = .ok () := by
  induction a with
  | nil => simp [waitAll]
  | cons x rest ih =>
    cases x with
    | ok t => simpa [waitAll] using ih
    | error e => simp [waitAll]

/-- The join succeeds exactly when no registered unit failed. -/
theorem waitAll_ok_iff (l : List (Except Status TensorProto)) :
    waitAll l = .ok () ↔ ∀ x ∈ l, ∀ e, x ≠ .error e := by
  induction l with
  | nil => simp [waitAll]
  | cons x rest ih =>
    cases x with
    | ok t => simp [waitAll, ih]
    | error e => simp [waitAll]

mutual

/-- The units registered during the walk are exactly the transfer-back units
of the tensor leaves, in depth-first order. -/
theorem collectTasks_materialize (env : Env) :
    ∀ v : XLAExecutorValue,
      collectTasks (MaterializeXLAValue env v) = (leaves v).map (tensorLeafTask env)
  | .tensor st => by
    simp [MaterializeXLAValue, collectTasks, leaves]
  | .struct_ els => by
    simp [MaterializeXLAValue, collectTasks, leaves,
      collectTasksList_materialize env els]

/-- List version of `collectTasks_materialize`. -/
theorem collectTasksList_materialize (env : Env) :
    ∀ vs : List XLAExecutorValue,
      collectTasksList (materializeList env vs) = (leavesList vs).map (tensorLeafTask env)
  | [] => by simp [materializeList, collectTasksList, leavesList]
  | v :: rest => by
    simp [materializeList, collectTasksList, leavesList,
      collectTasks_materialize env v, collectTasksList_materialize env rest]

end

/-- A successful `createValueList` returns exactly one child value per
element, each obtained by `CreateValueAny` on the element at the same
position. -/
theorem createValueList_ok (env : Env) :
    ∀ (els : List ValuePb) (vs : List XLAExecutorValue),
      (createValueList env els).1 = .ok vs →
      vs.length = els.length ∧
        ∀ i (h1 : i < els.length) (h2 : i < vs.length),
          (CreateValueAny env (els.get ⟨i, h1⟩)).1 = .ok (vs.get ⟨i, h2⟩) := by
  intro els
  induction els with
  | nil =>
    intro vs h
    simp [createValueList] at h
    subst h
    exact ⟨rfl, fun i h1 _ => absurd h1 (Nat.not_lt_zero i)⟩
  | cons el rest ih =>
    intro vs h
    rcases hpair : CreateValueAny env el with ⟨r, calls⟩
    cases r with
    | error e => simp [createValueList, hpair] at h
    | ok v =>
      rcases hrest : createValueList env rest with ⟨r2, calls2⟩
      cases r2 with
      | error e => simp [createValueList, hpair, hrest] at h
      | ok ws =>
        simp [createValueList, hpair, hrest] at h
        subst h
        obtain ⟨hlen, hpt⟩ := ih ws (by rw [hrest])
        refine ⟨by simp [hlen], ?_⟩
        intro i h1 h2
        cases i with
        | zero => simp [hpair]
        | succ j =>
          simpa using hpt j (by simpa using h1) (by simpa using h2)

/-- If every element before `bad` succeeds and `bad` fails with `e`, the
whole loop fails with `e`. -/
theorem createValueList_first_error (env : Env) :
    ∀ (pre : List ValuePb) (bad : ValuePb) (post : List ValuePb) (e : Status),
      (∀ el ∈ pre, ∃ v, (CreateValueAny env el).1 = .ok v) →
      (CreateValueAny env bad).1 = .error e →
      (createValueList env (pre ++ bad :: post)).1 = .error e := by
  intro pre
  induction pre with
  | nil =>
    intro bad post e _ hbad
    rcases hpair : CreateValueAny env bad with ⟨r, calls⟩
    rw [hpair] at hbad
    cases r with
    | error e2 =>
      simp at hbad
      subst hbad
      simp [createValueList, hpair]
    | ok v => simp at hbad
  | cons p rest ih =>
    intro bad post e hpre hbad
    obtain ⟨v, hv⟩ := hpre p (List.mem_cons_self p rest)
    rcases hpair : CreateValueAny env p with ⟨r, calls⟩
    rw [hpair] at hv
    cases r with
    | error e2 => simp at hv
    | ok v2 =>
      have hrec := ih bad post e (fun el hel => hpre el (List.mem_cons_of_mem p hel)) hbad
      rcases hrest : createValueList env (rest ++ bad :: post) with ⟨r2, calls2⟩
      rw [hrest] at hrec
      cases r2 with
      | error e2 =>
        simp at hrec
        subst hrec
        simp [createValueList, hpair, hrest]
      | ok ws => simp at hrec

/-- If every element of a struct individually creates and materializes back
to itself, the loop succeeds and the pending children fill back to the
original elements in order. -/
theorem structRoundTripAux (env : Env) :
    ∀ els : List ValuePb,
      (∀ el ∈ els, ∃ v, (CreateValueAny env el).1 = .ok v ∧ Materialize env v = .ok el) →
      ∃ vs, (createValueList env els).1 = .ok vs ∧
        waitAll (collectTasksList (materializeList env vs)) = .ok () ∧
        fillPendingList (materializeList env vs) = els := by
  intro els
  induction els with
  | nil => exact fun _ => ⟨[], rfl, rfl, rfl⟩
  | cons el rest ih =>
    intro h
    obtain ⟨v, hok, hmat⟩ := h el (List.mem_cons_self el rest)
    obtain ⟨vs, hvs, hwait, hfill⟩ := ih (fun x hx => h x (List.mem_cons_of_mem el hx))
    obtain ⟨hw, hf⟩ := (Materialize_ok_iff env v el).mp hmat
    refine ⟨v :: vs, ?_, ?_, ?_⟩
    · rcases hpair : CreateValueAny env el with ⟨r, calls⟩
      rw [hpair] at hok
      rcases hrest : createValueList env rest with ⟨r2, calls2⟩
      rw [hrest] at hvs
      simp at hok hvs
      subst hok
      subst hvs
      simp [createValueList, hpair, hrest]
    · simp only [materializeList, collectTasksList]
      exact (waitAll_append_ok _ _).mpr ⟨hw, hwait⟩
    · simp only [materializeList, fillPendingList]
      rw [hf, hfill]

/-- Materializing a single tensor leaf whose transfer-back unit succeeds
with `t` returns the tensor message `t`. -/
theorem Materialize_tensor_ok (env : Env) (st : ServiceTensor) (t : TensorProto)
    (h : tensorLeafTask env st = .ok t) :
    Materialize env (.tensor st) = .ok (.tensor t) := by
  have hpend : MaterializeXLAValue env (.tensor st) = .tensorSlot (.ok t) := by
    rw [show MaterializeXLAValue env (.tensor st) = .tensorSlot (tensorLeafTask env st) from rfl,
      h]
  unfold Materialize
  rw [hpend]
  rfl

/-- Materializing a struct value dispatches on the join of its children's
registered units. -/
theorem Materialize_struct_eq (env : Env) (vs : List XLAExecutorValue) :
    Materialize env (.struct_ vs) =
      match waitAll (collectTasksList (materializeList env vs)) with
      | .error e => .error e
      | .ok _ => .ok (.struct_ (fillPendingList (materializeList env vs))) := rfl

/-- C1: assuming the external codec and the remote transfers succeed and
round-trip dtype, shape and contents exactly, creating and then
materializing a tensor value message returns an equivalent message; and a
struct value message whose elements individually round-trip itself
round-trips element-for-element in the same order. -/
theorem tensor_and_struct_roundtrip :
    (∀ (env : Env) (t : TensorProto), TensorRoundTrips env t →
        createAndMaterialize env (.tensor t) = .ok (.tensor t)) ∧
    (∀ (env : Env) (els : List ValuePb),
        (∀ el ∈ els, createAndMaterialize env el = .ok el) →
        createAndMaterialize env (.struct_ els) = .ok (.struct_ els)) := by
  constructor
  · intro env t hrt
    obtain ⟨ht, lit, gd, lit2, ht2, h1, h2, h3, h4, h5, h6⟩ := hrt
    rw [createAndMaterialize_eq]
    have hcv : (CreateValueAny env (.tensor t)).1 = .ok (.tensor ⟨gd, ht.dtype⟩) := by
      simp [CreateValueAny, EmbedTensorValue, h1, h2, h3]
    rw [hcv]
    show Materialize env (.tensor ⟨gd, ht.dtype⟩) = .ok (.tensor t)
    exact Materialize_tensor_ok env ⟨gd, ht.dtype⟩ t (by simp [tensorLeafTask, h4, h5, h6])
  · intro env els hels
    have h' : ∀ el ∈ els, ∃ v, (CreateValueAny env el).1 = .ok v ∧ Materialize env v = .ok el :=
      fun el hel => createAndMaterialize_ok_elim env el el (hels el hel)
    obtain ⟨vs, hvs, hwait, hfill⟩ := structRoundTripAux env els h'
    rw [createAndMaterialize_eq]
    rcases hpair : createValueList env els with ⟨r, calls⟩
    rw [hpair] at hvs
    simp at hvs
    subst hvs
    have hcv : (CreateValueAny env (.struct_ els)).1 = .ok (.struct_ vs) := by
      simp [CreateValueAny, hpair]
    rw [hcv]
    show Materialize env (.struct_ vs) = .ok (.struct_ els)
    rw [Materialize_struct_eq, hwait, hfill]

/-- C1 witness: with the faithful test environment, a concrete tensor and a
concrete two-element struct both round-trip. -/
theorem tensor_and_struct_roundtrip_witness :
    createAndMaterialize idEnv (.tensor ⟨1, [3], [1, 2, 3]⟩) = .ok (.tensor ⟨1, [3], [1, 2, 3]⟩) ∧
    createAndMaterialize idEnv
        (.struct_ [ValuePb.tensor ⟨1, [3], [1, 2, 3]⟩, ValuePb.tensor ⟨2, [1], [7]⟩]) =
      .ok (.struct_ [ValuePb.tensor ⟨1, [3], [1, 2, 3]⟩, ValuePb.tensor ⟨2, [1], [7]⟩]) :=
  ⟨tensor_and_struct_roundtrip.1 idEnv ⟨1, [3], [1, 2, 3]⟩
      ⟨⟨1, [3], [1, 2, 3]⟩, ⟨1, [3], [1, 2, 3]⟩, ⟨⟨1, [3], [1, 2, 3]⟩⟩, ⟨1, [3], [1, 2, 3]⟩,
        ⟨1, [3], [1, 2, 3]⟩, rfl, rfl, rfl, rfl, rfl, rfl⟩,
   tensor_and_struct_roundtrip.2 idEnv
     [ValuePb.tensor ⟨1, [3], [1, 2, 3]⟩, ValuePb.tensor ⟨2, [1], [7]⟩]
     (by
       intro el hel
       simp only [List.mem_cons, List.not_mem_nil, or_false] at hel
       rcases hel with rfl | rfl <;> rfl)⟩

/-- C2: on a struct message, value creation returns one child per element in
message order, and the first failing child aborts the whole construction
with that child's failure, so no value covering only a prefix of the
children is ever returned. -/
theorem struct_children_in_order_all_or_nothing :
    (∀ (env : Env) (els : List ValuePb) (vs : XLAExecutorValue),
        (CreateValueAny env (.struct_ els)).1 = .ok vs →
        ∃ ws, vs = .struct_ ws ∧ ws.length = els.length ∧
          ∀ i (h1 : i < els.length) (h2 : i < ws.length),
            (CreateValueAny env (els.get ⟨i, h1⟩)).1 = .ok (ws.get ⟨i, h2⟩)) ∧
    (∀ (env : Env) (pre : List ValuePb) (bad : ValuePb) (post : List ValuePb) (e : Status),
        (∀ el ∈ pre, ∃ v, (CreateValueAny env el).1 = .ok v) →
        (CreateValueAny env bad).1 = .error e →
        (CreateValueAny env (.struct_ (pre ++ bad :: post))).1 = .error e) := by
  constructor
  · intro env els vs h
    rcases hpair : createValueList env els with ⟨r, calls⟩
    cases r with
    | error e => simp [CreateValueAny, hpair] at h
    | ok ws =>
      simp [CreateValueAny, hpair] at h
      obtain ⟨hlen, hpt⟩ := createValueList_ok env els ws (by rw [hpair])
      exact ⟨ws, h.symm, hlen, hpt⟩
  · intro env pre bad post e hpre hbad
    have hlist := createValueList_first_error env pre bad post e hpre hbad
    rcases hpair : createValueList env (pre ++ bad :: post) with ⟨r, calls⟩
    rw [hpair] at hlist
    cases r with
    | error e2 =>
      simp at hlist
      subst hlist
      simp [CreateValueAny, hpair]
    | ok ws => simp at hlist

/-- C2 witness: with the faithful test environment, a two-tensor struct
yields exactly two children in order, and a struct whose second element is
a computation message fails whole with the unimplemented error. -/
theorem struct_children_in_order_witness :
    (∃ ws, vMat = XLAExecutorValue.struct_ ws ∧
        ws.length = [ValuePb.tensor ⟨1, [3], [1, 2, 3]⟩, ValuePb.tensor ⟨2, [1], [7]⟩].length ∧
        ∀ i (h1 : i < [ValuePb.tensor ⟨1, [3], [1, 2, 3]⟩, ValuePb.tensor ⟨2, [1], [7]⟩].length)
          (h2 : i < ws.length),
          (CreateValueAny idEnv ([ValuePb.tensor ⟨1, [3], [1, 2, 3]⟩,
              ValuePb.tensor ⟨2, [1], [7]⟩].get ⟨i, h1⟩)).1 = .ok (ws.get ⟨i, h2⟩)) ∧
    (CreateValueAny idEnv (.struct_ [ValuePb.tensor ⟨1, [3], [1, 2, 3]⟩,
        ValuePb.computation 0])).1 = .error (unimplementedError "Not implemented yet") :=
  ⟨struct_children_in_order_all_or_nothing.1 idEnv
     [ValuePb.tensor ⟨1, [3], [1, 2, 3]⟩, ValuePb.tensor ⟨2, [1], [7]⟩] vMat rfl,
   struct_children_in_order_all_or_nothing.2 idEnv [ValuePb.tensor ⟨1, [3], [1, 2, 3]⟩]
     (ValuePb.computation 0) [] (unimplementedError "Not implemented yet")
     (by intro el hel; simp only [List.mem_singleton] at hel; subst hel; exact ⟨_, rfl⟩)
     rfl⟩

/-- C3: for a resolved value with at least two tensor leaves, if any leaf's
transfer-back unit fails then `Materialize` returns a failure and no
output message is returned. -/
theorem materialize_leaf_failure_no_partial (env : Env) (v : XLAExecutorValue)
    (hN : 2 ≤ (leaves v).length)
    (hfail : ∃ st ∈ leaves v, ∃ e, tensorLeafTask env st = .error e) :
    (∃ e, Materialize env v = .error e) ∧ ∀ m, Materialize env v ≠ .ok m := by
  obtain ⟨st, hmem, e, he⟩ := hfail
  have herr : ∃ e2, Materialize env v = .error e2 := by
    cases hw : waitAll (collectTasks (MaterializeXLAValue env v)) with
    | error e2 => exact ⟨e2, by unfold Materialize; rw [hw]⟩
    | ok u =>
      exfalso
      cases u
      have hall := (waitAll_ok_iff _).mp hw
      have hmemtask : tensorLeafTask env st ∈ collectTasks (MaterializeXLAValue env v) := by
        rw [collectTasks_materialize]
        exact List.mem_map_of_mem (tensorLeafTask env) hmem
      exact hall _ hmemtask e he
  refine ⟨herr, ?_⟩
  intro m hm
  obtain ⟨e2, he2⟩ := herr
  rw [he2] at hm
  exact Except.noConfusion hm

/-- C3 witness: with a test environment whose transfer back always fails,
materializing a concrete two-leaf struct returns a failure. -/
theorem materialize_leaf_failure_witness :
    (∃ e, Materialize envMatFail vMat = .error e) ∧ ∀ m, Materialize envMatFail vMat ≠ .ok m :=
  materialize_leaf_failure_no_partial envMatFail vMat (by decide)
    ⟨stA, by decide,
      internalError ("Error transferring tensor from XLA service to host. Message: " ++ "link down"),
      rfl⟩

/-- C4: `CreateCall`, `CreateStruct` and `CreateSelection` each return the
unimplemented error directly, scheduling no asynchronous unit and issuing
no remote call. -/
theorem unsupported_ops_fail_synchronously (fn value : ValueFuture)
    (arg : Option ValueFuture) (members : List ValueFuture) (index : Nat) :
    CreateCall fn arg = (.error (unimplementedError "Not implemented yet"), noEffects) ∧
    CreateStruct members = (.error (unimplementedError "Not implemented yet"), noEffects) ∧
    CreateSelection value index = (.error (unimplementedError "Not implemented yet"), noEffects) ∧
    noEffects.asyncUnits = 0 ∧ noEffects.remoteCalls = 0 ∧
    (unimplementedError "Not implemented yet").code = .unimplemented :=
  ⟨rfl, rfl, rfl, rfl, rfl, rfl⟩

/-- C4 witness: the unsupported operations at concrete arguments. -/
theorem unsupported_ops_witness :
    CreateCall (.ok (.struct_ [])) none =
      (.error (unimplementedError "Not implemented yet"), noEffects) ∧
    CreateStruct [] = (.error (unimplementedError "Not implemented yet"), noEffects) ∧
    CreateSelection (.ok (.struct_ [])) 0 =
      (.error (unimplementedError "Not implemented yet"), noEffects) ∧
    noEffects.asyncUnits = 0 ∧ noEffects.remoteCalls = 0 ∧
    (unimplementedError "Not implemented yet").code = .unimplemented :=
  unsupported_ops_fail_synchronously (.ok (.struct_ [])) (.ok (.struct_ [])) none [] 0

/-- C5: at a concrete input whose transfer to the service fails with the
service text "service exploded", `EmbedTensorValue` returns an
invalid-argument error whose message does not carry that text, because the
branch reads the (OK) literal-conversion status instead of the failed
transfer's status. -/
theorem embed_transfer_failure_drops_service_text :
    envTransferFail.transferToServer ⟨1, [3], [1, 2, 3]⟩ = .error ⟨.internal, "service exploded"⟩ ∧
    (EmbedTensorValue envTransferFail (.tensor ⟨1, [3], [1, 2, 3]⟩)).1 =
      .error (invalidArgumentError
        "Failed to transfer XLA literal to local server. Message: ") ∧
    ¬ msgCarries "Failed to transfer XLA literal to local server. Message: " "service exploded" :=
  ⟨rfl, rfl, by decide⟩

/-- C6: a value message that is neither tensor- nor struct-shaped yields the
unimplemented error and causes no remote allocation. -/
theorem other_shapes_unimplemented_no_allocation (env : Env) (m : ValuePb)
    (hT : ∀ t, m ≠ .tensor t) (hS : ∀ els, m ≠ .struct_ els) :
    CreateValueAny env m = (.error (unimplementedError "Not implemented yet"), []) ∧
    (CreateExecutorValue env m).2.remoteCalls = 0 := by
  cases m with
  | tensor t => exact absurd rfl (hT t)
  | struct_ els => exact absurd rfl (hS els)
  | computation tag => exact ⟨rfl, rfl⟩
  | unset => exact ⟨rfl, rfl⟩

/-- C6 witness: a computation-shaped message yields the unimplemented error
with no remote allocation. -/
theorem other_shapes_unimplemented_witness :
    CreateValueAny idEnv (.computation 0) = (.error (unimplementedError "Not implemented yet"), []) ∧
    (CreateExecutorValue idEnv (.computation 0)).2.remoteCalls = 0 :=
  other_shapes_unimplemented_no_allocation idEnv (.computation 0)
    (fun t h => ValuePb.noConfusion h) (fun els h => ValuePb.noConfusion h)

/-- C7 counterexample: the defensive default branch of `MaterializeXLAValue`
builds an unimplemented-class status, not an internal-class one. -/
theorem materialize_default_branch_not_internal :
    (materializeDefaultStatus .UNIMPLEMENTED).code = .unimplemented ∧
    (materializeDefaultStatus .UNIMPLEMENTED).code ≠ .internal :=
  ⟨rfl, by decide⟩

/-- C7 amended: for a tag that is neither `TENSOR` nor `STRUCT`, the default
branch builds an unimplemented-class error whose message names the
offending value type (rendered as its underlying enum integer). -/
theorem materialize_default_branch_unimplemented (t : ValueType)
    (hT : t ≠ .TENSOR) (hS : t ≠ .STRUCT) :
    (materializeDefaultStatus t).code = .unimplemented ∧
    msgCarries (materializeDefaultStatus t).message (toString t.underlying) := by
  cases t with
  | TENSOR => exact absurd rfl hT
  | STRUCT => exact absurd rfl hS
  | UNIMPLEMENTED => exact ⟨rfl, by decide⟩

/-- C7 witness: the amended statement at the `UNIMPLEMENTED` tag. -/
theorem materialize_default_branch_witness :
    (materializeDefaultStatus .UNIMPLEMENTED).code = .unimplemented ∧
    msgCarries (materializeDefaultStatus .UNIMPLEMENTED).message
      (toString ValueType.UNIMPLEMENTED.underlying) :=
  materialize_default_branch_unimplemented .UNIMPLEMENTED (by decide) (by decide)

/-- C8: every constructible `XLAExecutorValue` classifies as `TENSOR` or
`STRUCT`; the `UNIMPLEMENTED` classification never appears on a
constructed value. -/
theorem constructed_value_type_never_unimplemented (v : XLAExecutorValue) :
    (v.type = .TENSOR ∨ v.type = .STRUCT) ∧ v.type ≠ .UNIMPLEMENTED := by
  cases v with
  | tensor st => exact ⟨Or.inl rfl, fun h => ValueType.noConfusion h⟩
  | struct_ els => exact ⟨Or.inr rfl, fun h => ValueType.noConfusion h⟩

/-- C8 witness: the classification of a concrete constructed value. -/
theorem constructed_value_type_witness :
    (vMat.type = .TENSOR ∨ vMat.type = .STRUCT) ∧ vMat.type ≠ .UNIMPLEMENTED :=
  constructed_value_type_never_unimplemented vMat

/-- C9 counterexample: when client construction fails, the internal error
message carries the underlying message but not the platform name. -/
theorem getxlaclient_construct_error_lacks_platform_name :
    GetXLAClient penvClientFail "Host" =
      .error (internalError ("Failed to construct XLA client. Message: " ++ "boom")) ∧
    ¬ msgCarries ("Failed to construct XLA client. Message: " ++ "boom") "Host" :=
  ⟨rfl, by decide⟩

/-- C9 amended: both failure modes of `GetXLAClient` are internal-class
errors carrying the underlying message; the platform-not-found error
additionally carries the platform name, while the client-construction
error carries only the underlying message. -/
theorem getxlaclient_internal_errors (penv : PlatformEnv) (name : String) :
    (∀ s, penv.platformWithName name = .error s →
        ∃ msg, GetXLAClient penv name = .error ⟨.internal, msg⟩ ∧
          msgCarries msg name ∧ msgCarries msg s.message) ∧
    (∀ p s, penv.platformWithName name = .ok p →
        penv.getOrCreateLocalClient ⟨p⟩ = .error s →
        ∃ msg, GetXLAClient penv name = .error ⟨.internal, msg⟩ ∧
          msgCarries msg s.message) := by
  constructor
  · intro s hs
    refine ⟨"Failed to find specified platform " ++ name ++
      " in MultiPlatformManager. You may be missing a build " ++
      "dependency to register the platform. Message: " ++ s.message, ?_, ?_, ?_⟩
    · simp [GetXLAClient, hs, internalError]
    · refine ⟨"Failed to find specified platform ".data,
        (" in MultiPlatformManager. You may be missing a build " ++
          "dependency to register the platform. Message: " ++ s.message).data, ?_⟩
      simp [String.toList, String.data_append, List.append_assoc]
    · refine ⟨("Failed to find specified platform " ++ name ++
        " in MultiPlatformManager. You may be missing a build " ++
        "dependency to register the platform. Message: ").data, [], ?_⟩
      simp [String.toList, String.data_append, List.append_assoc]
  · intro p s hp hc
    refine ⟨"Failed to construct XLA client. Message: " ++ s.message, ?_, ?_⟩
    · simp [GetXLAClient, hp, hc, internalError]
    · refine ⟨"Failed to construct XLA client. Message: ".data, [], ?_⟩
      simp [String.toList, String.data_append]

/-- C9 witness: the amended statement at concrete registries for both
failure modes. -/
theorem getxlaclient_internal_errors_witness :
    (∃ msg, GetXLAClient penvNotFound "Host" = .error ⟨.internal, msg⟩ ∧
        msgCarries msg "Host" ∧ msgCarries msg "no such platform") ∧
    (∃ msg, GetXLAClient penvClientFail "Host" = .error ⟨.internal, msg⟩ ∧
        msgCarries msg "boom") :=
  ⟨(getxlaclient_internal_errors penvNotFound "Host").1 ⟨.notFound, "no such platform"⟩ rfl,
   (getxlaclient_internal_errors penvClientFail "Host").2 ⟨0⟩ ⟨.unknown, "boom"⟩ rfl rfl⟩

/-- C10: a struct message with zero elements creates a struct value with
zero children and no allocations; materializing it returns a struct-shaped
message with zero elements (not an absent message) and registers no units
in the task group. -/
theorem empty_struct_creates_and_materializes (env : Env) :
    CreateValueAny env (.struct_ []) = (.ok (.struct_ []), []) ∧
    Materialize env (.struct_ []) = .ok (.struct_ []) ∧
    collectTasks (MaterializeXLAValue env (.struct_ [])) = [] :=
  ⟨rfl, rfl, rfl⟩

/-- C10 witness: the empty struct behaviour in the faithful test
environment. -/
theorem empty_struct_witness :
    CreateValueAny idEnv (.struct_ []) = (.ok (.struct_ []), []) ∧
    Materialize idEnv (.struct_ []) = .ok (.struct_ []) ∧
    collectTasks (MaterializeXLAValue idEnv (.struct_ [])) = [] :=
  empty_struct_creates_and_materializes idEnv

end TFF
